import Mathlib

/-!
Verification of the minisearch-indexrs repository.

The repository contains two CLI scripts (`src/unnamed/part_000` and
`src/minisearch-cli/main.js`) that read a JSON configuration and a JSON
document collection, build a MiniSearch index, and print its JSON
serialization.  The index-construction core itself (tokenizer, field
registry, inverted index builder, statistics collector, serializer) is not
part of the repository; it is modelled here from the specification.
The CLI wrappers are translated directly from the JavaScript sources.
-/

/-- JSON values, the common data language of config, documents and artifact.
Arrays and objects are represented as cons chains (`anil`/`acons`,
`onil`/`ocons`), an isomorphic first-order encoding of JSON.  Numbers are
modelled as integers (the inputs and artifact fields the claims touch are
integral; rational averages are encoded as explicit numerator/denominator
pairs by the serializer). -/
inductive Json where
  | null : Json
  | bool (b : Bool) : Json
  | num (n : Int) : Json
  | str (s : String) : Json
  | anil : Json
  | acons (head tail : Json) : Json
  | onil : Json
  | ocons (key : String) (val tail : Json) : Json
deriving DecidableEq, Repr

/-- Build a JSON array from a Lean list. -/
def Json.ofArr : List Json → Json
  | [] => Json.anil
  | x :: r => Json.acons x (Json.ofArr r)

/-- Build a JSON object from a Lean association list. -/
def Json.ofObj : List (String × Json) → Json
  | [] => Json.onil
  | (k, v) :: r => Json.ocons k v (Json.ofObj r)

/-- Look a key up in a JSON object (first occurrence wins, as in
JavaScript property access on parsed JSON). -/
def Json.lookupKey : Json → String → Option Json
  | Json.ocons k v r, key => if k = key then some v else r.lookupKey key
  | _, _ => none

/-- Convert a JSON object to a Lean association list. -/
def Json.toKvs : Json → Option (List (String × Json))
  | Json.onil => some []
  | Json.ocons k v r => (Json.toKvs r).map fun l => (k, v) :: l
  | _ => none

/-- A document as consumed by the build: a mapping from field name to raw
JSON value (spec §6: "an ordered sequence of document records, each a
mapping of field name to value"). -/
abbrev Doc := List (String × Json)

/-- Build-time errors (spec §7 taxonomy, restricted to the build path). -/
inductive BuildError where
  | configurationError : BuildError
  | invalidDocument : BuildError
  | missingId (pos : Nat) : BuildError
  | duplicateDocument (extId : Json) : BuildError
deriving DecidableEq, Repr

/-- Deserializer errors (spec §4.6 / §7). -/
inductive DeserializeError where
  | schemaVersion : DeserializeError
  | malformed : DeserializeError
deriving DecidableEq, Repr

/-- Modelled from the spec: parsed field configuration (spec §6: `fields`,
`storedFields`, optional `idField` defaulting to `id`). -/
structure Config where
  fields : List String
  storedFields : List String
  idField : String
deriving DecidableEq, Repr

/-- Split a character stream into maximal alphanumeric runs, accumulating
the current run in reverse; non-alphanumeric characters end the run and
empty runs are dropped. -/
def splitRuns : List Char → List Char → List (List Char)
  | [], cur => if cur.isEmpty then [] else [cur.reverse]
  | c :: rest, cur =>
    if c.isAlphanum then splitRuns rest (c :: cur)
    else if cur.isEmpty then splitRuns rest []
    else cur.reverse :: splitRuns rest []

/-- Modelled from the spec: the default tokenizer (spec §4.1): split on
non-alphanumeric boundaries, discard empty tokens, lower-case each token. -/
def tokenize (s : String) : List String :=
  (splitRuns s.toList []).map fun cs => String.mk (cs.map Char.toLower)

/-- Extract a list of strings from a JSON value, if it is an array of
strings (used to validate the `fields` / `storedFields` config entries). -/
def strListOf : Json → Option (List String)
  | Json.anil => some []
  | Json.acons (Json.str s) r => (strListOf r).map fun l => s :: l
  | _ => none

/-- Modelled from the spec: config validation (spec §7 `ConfigurationError`:
missing or malformed `fields`/`storedFields`; spec §6: optional `idField`
defaults to `id`). -/
def parseConfig (j : Json) : Except BuildError Config :=
  match j.lookupKey "fields" with
  | none => Except.error BuildError.configurationError
  | some fj =>
    match strListOf fj with
    | none => Except.error BuildError.configurationError
    | some fields =>
      match
        (match j.lookupKey "storedFields" with
         | none => some []
         | some sj => strListOf sj) with
      | none => Except.error BuildError.configurationError
      | some stored =>
        match j.lookupKey "idField" with
        | none => Except.ok ⟨fields, stored, "id"⟩
        | some (Json.str s) => Except.ok ⟨fields, stored, s⟩
        | some _ => Except.error BuildError.configurationError

/-- Parse the document collection: a JSON array of JSON objects (spec §6:
"an ordered sequence of document records"). -/
def parseDocs : Json → Except BuildError (List Doc)
  | Json.anil => Except.ok []
  | Json.acons d r =>
    match d.toKvs with
    | none => Except.error BuildError.invalidDocument
    | some kvs => (parseDocs r).map fun l => kvs :: l
  | _ => Except.error BuildError.invalidDocument

/-- Modelled from the spec: resolve a document's external identifier via the
configured id field (spec §6: "optional `idField` naming which document
property is the external document identifier"). -/
def resolveId (cfg : Config) (d : Doc) : Option Json :=
  List.lookup cfg.idField d

/-- Modelled from the spec: the token sequence of one field of one document.
Non-string and absent values degrade to the empty sequence (spec §4.1). -/
def fieldTokens (d : Doc) (name : String) : List String :=
  match List.lookup name d with
  | some (Json.str s) => tokenize s
  | _ => []

/-- A posting list for one term in one field: internal document id mapped to
term frequency (spec §3 `PostingEntry`). -/
abbrev Postings := List (Nat × Nat)

/-- Per-term map from `FieldId` to its posting list. -/
abbrev FieldPostings := List (Nat × Postings)

/-- The inverted index: term mapped to per-field posting lists, kept in
ascending term order to preserve ordered prefix traversal (spec §4.3). -/
abbrev InvIndex := List (String × FieldPostings)

/-- Record one more occurrence of a term for a document: first occurrence
creates the entry with frequency 1, later occurrences increment it
(spec §4.3). -/
def bumpPosting (ps : Postings) (docId : Nat) : Postings :=
  match ps with
  | [] => [(docId, 1)]
  | (d, c) :: rest =>
    if d = docId then (d, c + 1) :: rest else (d, c) :: bumpPosting rest docId

/-- Record one more occurrence of a term in a given field for a document. -/
def bumpField (fm : FieldPostings) (fid docId : Nat) : FieldPostings :=
  match fm with
  | [] => [(fid, [(docId, 1)])]
  | (f, ps) :: rest =>
    if f = fid then (f, bumpPosting ps docId) :: rest
    else (f, ps) :: bumpField rest fid docId

/-- Insert one term occurrence into the inverted index, keeping terms in
ascending order (sorted insertion, spec §4.3 / §9 prefix-queryable
structure). -/
def addTermOccur (idx : InvIndex) (t : String) (fid docId : Nat) : InvIndex :=
  match idx with
  | [] => [(t, [(fid, [(docId, 1)])])]
  | (u, fm) :: rest =>
    if t = u then (u, bumpField fm fid docId) :: rest
    else if t < u then (t, [(fid, [(docId, 1)])]) :: (u, fm) :: rest
    else (u, fm) :: addTermOccur rest t fid docId

/-- Accumulated build state: document-id registry, per-document field
lengths, stored-field records and the inverted index (spec §3). -/
structure BuildSt where
  documentIds : List (Nat × Json)
  fieldLength : List (Nat × List Nat)
  storedFields : List (Nat × List (String × Json))
  index : InvIndex
deriving DecidableEq, Repr

/-- The empty build state. -/
def BuildSt.empty : BuildSt := ⟨[], [], [], []⟩

/-- Index every configured field of one document into the inverted index. -/
def indexDocFields (cfg : Config) (docId : Nat) (d : Doc) (idx : InvIndex) :
    InvIndex :=
  cfg.fields.enum.foldl
    (fun acc p =>
      (fieldTokens d p.2).foldl (fun a t => addTermOccur a t p.1 docId) acc)
    idx

/-- Modelled from the spec: process one document — resolve its external id,
fail on a missing id or an already-registered id (spec §4.2
`DuplicateDocumentError`), otherwise register the document, record its
per-field token counts, stored fields and term occurrences. -/
def addDoc (cfg : Config) (st : BuildSt) (docId : Nat) (d : Doc) :
    Except BuildError BuildSt :=
  match resolveId cfg d with
  | none => Except.error (BuildError.missingId docId)
  | some ext =>
    if st.documentIds.any fun p => p.2 = ext then
      Except.error (BuildError.duplicateDocument ext)
    else
      Except.ok
        { documentIds := st.documentIds ++ [(docId, ext)]
          fieldLength :=
            st.fieldLength ++ [(docId, cfg.fields.map fun f => (fieldTokens d f).length)]
          storedFields :=
            st.storedFields ++
              [(docId, cfg.storedFields.filterMap fun n =>
                (List.lookup n d).map fun v => (n, v))]
          index := indexDocFields cfg docId d st.index }

/-- Fold `addDoc` over the document sequence, assigning internal ids in
arrival order (spec §3: dense integers assigned in first-seen order
starting at 0). -/
def buildGo (cfg : Config) : Nat → BuildSt → List Doc → Except BuildError BuildSt
  | _, st, [] => Except.ok st
  | n, st, d :: rest =>
    match addDoc cfg st n d with
    | Except.error e => Except.error e
    | Except.ok st2 => buildGo cfg (n + 1) st2 rest

/-- Modelled from the spec: per-field mean token count over the documents
with nonzero length for that field; a field contained in no document yields
0 (spec §4.4). -/
def meanNonzero (ls : List Nat) : ℚ :=
  let nz := ls.filter fun n => n ≠ 0
  if nz.length = 0 then 0 else (nz.sum : ℚ) / (nz.length : ℚ)

/-- The column of per-document token counts for one field id. -/
def colLengths (fl : List (Nat × List Nat)) (fid : Nat) : List Nat :=
  fl.map fun p => p.2.getD fid 0

/-- The fully built index, mirroring the serialized artifact's logical
fields (spec §6). -/
structure BuiltIndex where
  documentCount : Nat
  documentIds : List (Nat × Json)
  fieldIds : List (String × Nat)
  fieldLength : List (Nat × List Nat)
  averageFieldLength : List ℚ
  storedFields : List (Nat × List (String × Json))
  index : InvIndex
deriving DecidableEq, Repr

/-- Modelled from the spec: one full index build (spec §2 data flow): fold
all documents through the registry/indexer, then derive the average field
lengths and assemble the artifact's logical fields. -/
def buildIndex (cfg : Config) (docs : List Doc) : Except BuildError BuiltIndex :=
  match buildGo cfg 0 BuildSt.empty docs with
  | Except.error e => Except.error e
  | Except.ok st =>
    Except.ok
      { documentCount := st.documentIds.length
        documentIds := st.documentIds
        fieldIds := cfg.fields.enum.map fun p => (p.2, p.1)
        fieldLength := st.fieldLength
        averageFieldLength :=
          (List.range cfg.fields.length).map fun fid =>
            meanNonzero (colLengths st.fieldLength fid)
        storedFields := st.storedFields
        index := st.index }

/-- Encode a natural number as a JSON number. -/
def encNat (n : Nat) : Json := Json.num n

/-- Decode a natural number from a JSON number. -/
def decNat : Json → Except DeserializeError Nat
  | Json.num k => if k < 0 then Except.error DeserializeError.malformed else Except.ok k.toNat
  | _ => Except.error DeserializeError.malformed

/-- Decode a string from a JSON string. -/
def decStr : Json → Except DeserializeError String
  | Json.str s => Except.ok s
  | _ => Except.error DeserializeError.malformed

/-- Encode a rational as an exact numerator/denominator pair. -/
def encRat (q : ℚ) : Json := Json.acons (Json.num q.num) (Json.acons (Json.num q.den) Json.anil)

/-- Decode a rational from a numerator/denominator pair. -/
def decRat : Json → Except DeserializeError ℚ
  | Json.acons (Json.num p) (Json.acons (Json.num d) Json.anil) =>
    if d ≤ 0 then Except.error DeserializeError.malformed
    else Except.ok ((p : ℚ) / (d : ℚ))
  | _ => Except.error DeserializeError.malformed

/-- Encode a Lean list as a JSON array via an element encoder. -/
def encList (f : α → Json) : List α → Json
  | [] => Json.anil
  | x :: r => Json.acons (f x) (encList f r)

/-- Decode a JSON array via an element decoder. -/
def decList (f : Json → Except DeserializeError α) : Json → Except DeserializeError (List α)
  | Json.anil => Except.ok []
  | Json.acons x r =>
    match f x, decList f r with
    | Except.ok a, Except.ok l => Except.ok (a :: l)
    | Except.error e, _ => Except.error e
    | _, Except.error e => Except.error e
  | _ => Except.error DeserializeError.malformed

/-- Encode a pair as a two-element JSON array. -/
def encPair (f : α → Json) (g : β → Json) (p : α × β) : Json :=
  Json.acons (f p.1) (Json.acons (g p.2) Json.anil)

/-- Decode a pair from a two-element JSON array. -/
def decPair (f : Json → Except DeserializeError α) (g : Json → Except DeserializeError β) :
    Json → Except DeserializeError (α × β)
  | Json.acons x (Json.acons y Json.anil) =>
    match f x, g y with
    | Except.ok a, Except.ok b => Except.ok (a, b)
    | Except.error e, _ => Except.error e
    | _, Except.error e => Except.error e
  | _ => Except.error DeserializeError.malformed

/-- The schema version marker carried by every artifact (spec §6
`serializationVersion`). -/
def serializationVersion : Int := 2

/-- Modelled from the spec: assemble the serialized artifact from the built
index (spec §6's logical fields, in order). -/
def serializeJ (I : BuiltIndex) : Json :=
  Json.ofObj
    [ ("serializationVersion", Json.num serializationVersion)
    , ("documentCount", encNat I.documentCount)
    , ("documentIds", encList (encPair encNat id) I.documentIds)
    , ("fieldIds", encList (encPair Json.str encNat) I.fieldIds)
    , ("fieldLength", encList (encPair encNat (encList encNat)) I.fieldLength)
    , ("averageFieldLength", encList encRat I.averageFieldLength)
    , ("storedFields",
        encList (encPair encNat (encList (encPair Json.str id))) I.storedFields)
    , ("index",
        encList (encPair Json.str
          (encList (encPair encNat (encList (encPair encNat encNat))))) I.index) ]

/-- Modelled from the spec: the deserializer (spec §4.6): reject an
unrecognized version marker with a `SchemaVersionError`, reject structural
violations with a `MalformedArtifactError`, otherwise reconstruct the
in-memory structures. -/
def deserialize (j : Json) : Except DeserializeError BuiltIndex :=
  match j with
  | Json.ocons "serializationVersion" v (Json.ocons "documentCount" c
      (Json.ocons "documentIds" di (Json.ocons "fieldIds" fi
      (Json.ocons "fieldLength" fl (Json.ocons "averageFieldLength" af
      (Json.ocons "storedFields" sf (Json.ocons "index" ix Json.onil))))))) =>
    if v = Json.num serializationVersion then
      match decNat c, decList (decPair decNat Except.ok) di,
            decList (decPair decStr decNat) fi,
            decList (decPair decNat (decList decNat)) fl,
            decList decRat af,
            decList (decPair decNat (decList (decPair decStr Except.ok))) sf,
            decList (decPair decStr
              (decList (decPair decNat (decList (decPair decNat decNat))))) ix with
      | Except.ok c2, Except.ok di2, Except.ok fi2, Except.ok fl2,
        Except.ok af2, Except.ok sf2, Except.ok ix2 =>
          Except.ok ⟨c2, di2, fi2, fl2, af2, sf2, ix2⟩
      | _, _, _, _, _, _, _ => Except.error DeserializeError.malformed
    else Except.error DeserializeError.schemaVersion
  | _ => Except.error DeserializeError.malformed

/-- Escape one character for a JSON string literal. -/
def escChar (c : Char) : String :=
  if c = '"' then "\\\"" else if c = '\\' then "\\\\" else String.singleton c

/-- Escape a string for a JSON string literal. -/
def escapeStr (s : String) : String :=
  String.join (s.toList.map escChar)

mutual

/-- Render a JSON value to its output text, deterministically
(spec §4.6: serialization "must be deterministic given identical inputs"). -/
def render : Json → String
  | Json.null => "null"
  | Json.bool b => cond b "true" "false"
  | Json.num n => toString n
  | Json.str s => "\"" ++ escapeStr s ++ "\""
  | Json.anil => "[]"
  | Json.acons x r => "[" ++ render x ++ renderArrRest r
  | Json.onil => "\x7b\x7d"
  | Json.ocons k v r =>
      "\x7b\"" ++ escapeStr k ++ "\":" ++ render v ++ renderObjRest r

/-- Render the tail of a JSON array. -/
def renderArrRest : Json → String
  | Json.anil => "]"
  | Json.acons x r => "," ++ render x ++ renderArrRest r
  | j => "," ++ render j ++ "]"

/-- Render the tail of a JSON object. -/
def renderObjRest : Json → String
  | Json.onil => "\x7d"
  | Json.ocons k v r => ",\"" ++ escapeStr k ++ "\":" ++ render v ++ renderObjRest r
  | j => "," ++ render j ++ "\x7d"

end

/-- Modelled from the spec: one complete build-and-serialize cycle as the
CLI performs it: validate the parsed config, read the document records,
build the index and print it (spec §6 CLI surface). -/
def oneCycle (cfgJ srcJ : Json) : Except BuildError String :=
  match parseConfig cfgJ with
  | Except.error e => Except.error e
  | Except.ok cfg =>
    match parseDocs srcJ with
    | Except.error e => Except.error e
    | Except.ok docs =>
      match buildIndex cfg docs with
      | Except.error e => Except.error e
      | Except.ok I => Except.ok (render (serializeJ I))

/-- JavaScript whitespace accepted by `parseInt` before the number. -/
def isJsWs (c : Char) : Bool :=
  c = ' ' || c = '\t' || c = '\n' || c = '\r' || c = '\x0b' || c = '\x0c'

/-- The numeric value of one digit character, if it is a digit of the given
base (decimal or hexadecimal). -/
def digitVal (base : Nat) (c : Char) : Option Nat :=
  let n := c.toNat
  let v : Option Nat :=
    if 48 ≤ n ∧ n ≤ 57 then some (n - 48)
    else if 97 ≤ n ∧ n ≤ 102 then some (n - 87)
    else if 65 ≤ n ∧ n ≤ 70 then some (n - 55)
    else none
  match v with
  | some d => if d < base then some d else none
  | none => none

/-- JavaScript `parseInt(s)` with no radix argument: skip leading
whitespace, accept an optional sign, detect a `0x`/`0X` hexadecimal prefix,
consume the longest digit prefix; `none` models `NaN` (no digits). -/
def jsParseInt (s : String) : Option Int :=
  let cs := s.toList.dropWhile isJsWs
  let sgn : Int :=
    match cs with
    | '-' :: _ => -1
    | _ => 1
  let cs2 : List Char :=
    match cs with
    | '-' :: r => r
    | '+' :: r => r
    | r => r
  let base : Nat :=
    match cs2 with
    | '0' :: 'x' :: _ => 16
    | '0' :: 'X' :: _ => 16
    | _ => 10
  let cs3 : List Char :=
    match cs2 with
    | '0' :: 'x' :: r => r
    | '0' :: 'X' :: r => r
    | r => r
  let ds := cs3.takeWhile fun c => (digitVal base c).isSome
  if ds.isEmpty then none
  else
    some (sgn * (ds.foldl (fun acc c => acc * base + (digitVal base c).getD 0) 0 : Nat))

/-- `parseInt(process.argv[4]) || 0` from `src/unnamed/part_000` line 6:
an absent argument parses (via the string `"undefined"`) to `NaN`, and
`|| 0` coerces `NaN` and `0` alike to `0`. -/
def timesOf : Option String → Int
  | none => 0
  | some s =>
    match jsParseInt s with
    | none => 0
    | some n => n

/-- The observable outcome of one CLI process run: exit status, the lines
written to standard output, and the number of completed
build-and-serialize cycles. -/
structure ProcOutcome where
  exitCode : Nat
  stdoutLines : List String
  builds : Nat
deriving DecidableEq, Repr

/-- Outcome of a run killed by an uncaught exception: Node exits nonzero
having printed nothing (both scripts print only after a successful build). -/
def crashed : ProcOutcome := ⟨1, [], 0⟩

/-- The benchmark loop of `src/unnamed/part_000` lines 12-16: run the
build-and-serialize cycle the given number of times, discarding each
result; returns the number of completed cycles. -/
def runCycles (cfgJ srcJ : Json) : Nat → Except BuildError Nat
  | 0 => Except.ok 0
  | n + 1 =>
    match oneCycle cfgJ srcJ with
    | Except.error e => Except.error e
    | Except.ok _ =>
      match runCycles cfgJ srcJ n with
      | Except.error e => Except.error e
      | Except.ok k => Except.ok (k + 1)

/-- The program `src/unnamed/part_000`: read and JSON-parse the config file
then the document file; with a truthy repeat count run the silent benchmark
loop, otherwise build once and print the serialized index.  `readFile` and
`parseJson` model `fs.readFileSync` and `JSON.parse`, which throw on an
unreadable file or malformed JSON. -/
def runIndexrs (readFile : String → Except Unit String)
    (parseJson : String → Except Unit Json)
    (configPath sourcePath : String) (arg4 : Option String) : ProcOutcome :=
  match readFile configPath with
  | Except.error _ => crashed
  | Except.ok ctext =>
    match parseJson ctext with
    | Except.error _ => crashed
    | Except.ok cfgJ =>
      match readFile sourcePath with
      | Except.error _ => crashed
      | Except.ok stext =>
        match parseJson stext with
        | Except.error _ => crashed
        | Except.ok srcJ =>
          let times := timesOf arg4
          if times ≠ 0 then
            match runCycles cfgJ srcJ times.toNat with
            | Except.error _ => crashed
            | Except.ok k => ⟨0, [], k⟩
          else
            match oneCycle cfgJ srcJ with
            | Except.error _ => crashed
            | Except.ok out => ⟨0, [out], 1⟩

/-- The program `src/minisearch-cli/main.js`: read and JSON-parse the config
file then the document file, build one index and print its serialization. -/
def runCli (readFile : String → Except Unit String)
    (parseJson : String → Except Unit Json)
    (configPath sourcePath : String) : ProcOutcome :=
  match readFile configPath with
  | Except.error _ => crashed
  | Except.ok ctext =>
    match parseJson ctext with
    | Except.error _ => crashed
    | Except.ok cfgJ =>
      match readFile sourcePath with
      | Except.error _ => crashed
      | Except.ok stext =>
        match parseJson stext with
        | Except.error _ => crashed
        | Except.ok srcJ =>
          match oneCycle cfgJ srcJ with
          | Except.error _ => crashed
          | Except.ok out => ⟨0, [out], 1⟩

/-- Whether an `Except` computation succeeded. -/
def isOkB : Except ε α → Bool
  | Except.ok _ => true
  | Except.error _ => false

/-- Whether a build result is a `DuplicateDocumentError`. -/
def isDupErr : Except BuildError α → Bool
  | Except.error (BuildError.duplicateDocument _) => true
  | _ => false

/-- Concrete fixture: a one-indexed-field, one-stored-field configuration. -/
def cfgJW : Json :=
  Json.ofObj
    [ ("fields", Json.ofArr [Json.str "body"])
    , ("storedFields", Json.ofArr [Json.str "title"]) ]

/-- Concrete fixture: a one-document corpus. -/
def docsJW : Json :=
  Json.ofArr
    [ Json.ofObj
        [ ("id", Json.str "a")
        , ("body", Json.str "the cat sat on the mat")
        , ("title", Json.str "Hello World") ] ]

/-- Concrete fixture: a filesystem holding a readable config file and a
readable document file. -/
def readW : String → Except Unit String := fun p =>
  if p = "cfg" then Except.ok "C"
  else if p = "docs" then Except.ok "D"
  else Except.error ()

/-- Concrete fixture: a filesystem on which every read fails. -/
def readBad : String → Except Unit String := fun _ => Except.error ()

/-- Concrete fixture: the JSON parses of the two fixture files. -/
def parseW : String → Except Unit Json := fun s =>
  if s = "C" then Except.ok cfgJW
  else if s = "D" then Except.ok docsJW
  else Except.error ()

/-- The artifact text printed for the fixture inputs. -/
def outW : String :=
  match oneCycle cfgJW docsJW with
  | Except.ok s => s
  | Except.error _ => ""

/-- Concrete fixture: one-field config for the build-level claims. -/
def c5cfg : Config := ⟨["body"], [], "id"⟩

/-- Concrete fixture: corpus whose `body` token counts are 6, 4 and 0. -/
def c5docs : List Doc :=
  [ [("id", Json.str "a"), ("body", Json.str "a b c d e f")]
  , [("id", Json.str "b"), ("body", Json.str "a b c d")]
  , [("id", Json.str "c")] ]

/-- The index built from the statistics fixture. -/
def c5built : BuiltIndex :=
  match buildIndex c5cfg c5docs with
  | Except.ok I => I
  | Except.error _ => ⟨0, [], [], [], [], [], []⟩

/-- Concrete fixture: two documents sharing external id `"x"`. -/
def c4docs : List Doc := [[("id", Json.str "x")], [("id", Json.str "x")]]

theorem isOkB_false_iff (x : Except ε α) :
    isOkB x = false ↔ ∃ e, x = Except.error e := by
  cases x <;> simp [isOkB]

theorem runCycles_ok (cfgJ srcJ : Json) (out : String)
    (h : oneCycle cfgJ srcJ = Except.ok out) :
    ∀ m, runCycles cfgJ srcJ m = Except.ok m := by
  intro m
  induction m with
  | zero => rfl
  | succ k ih => simp [runCycles, h, ih]

theorem decNat_encNat (n : Nat) : decNat (encNat n) = Except.ok n := by
  simp [decNat, encNat]

theorem decStr_encStr (s : String) : decStr (Json.str s) = Except.ok s := rfl

theorem decRat_encRat (q : ℚ) : decRat (encRat q) = Except.ok q := by
  have hd : ¬ ((q.den : Int) ≤ 0) := by
    have := q.pos
    omega
  simp only [decRat, encRat, if_neg hd]
  congr 1
  push_cast
  exact q.num_div_den

theorem decList_encList (f : Json → Except DeserializeError α) (g : α → Json)
    (hfg : ∀ a, f (g a) = Except.ok a) :
    ∀ l : List α, decList f (encList g l) = Except.ok l := by
  intro l
  induction l with
  | nil => rfl
  | cons x r ih => simp [encList, decList, hfg, ih]

theorem decPair_encPair (f : Json → Except DeserializeError α)
    (g : Json → Except DeserializeError β) (f2 : α → Json) (g2 : β → Json)
    (hf : ∀ a, f (f2 a) = Except.ok a) (hg : ∀ b, g (g2 b) = Except.ok b)
    (p : α × β) : decPair f g (encPair f2 g2 p) = Except.ok p := by
  simp [decPair, encPair, hf, hg]

theorem buildGo_error_dup (cfg : Config) :
    ∀ (docs : List Doc) (n : Nat) (st : BuildSt) (e : BuildError),
      (∀ d ∈ docs, (resolveId cfg d).isSome = true) →
      buildGo cfg n st docs = Except.error e →
      ∃ x, e = BuildError.duplicateDocument x := by
  intro docs
  induction docs with
  | nil =>
    intro n st e _ h
    simp [buildGo] at h
  | cons d rest ih =>
    intro n st e hall h
    have hd := hall d (List.mem_cons_self d rest)
    obtain ⟨x, hx⟩ := Option.isSome_iff_exists.mp hd
    by_cases hdup : (st.documentIds.any fun p => p.2 = x) = true
    · simp [buildGo, addDoc, hx, hdup] at h
      exact ⟨x, h.symm⟩
    · simp [buildGo, addDoc, hx, hdup] at h
      exact ih (n + 1) _ e (fun d2 hm => hall d2 (List.mem_cons_of_mem _ hm)) h

theorem buildGo_ok_ids (cfg : Config) :
    ∀ (docs : List Doc) (n : Nat) (st st2 : BuildSt),
      buildGo cfg n st docs = Except.ok st2 →
      st2.documentIds.map Prod.fst =
        st.documentIds.map Prod.fst ++ List.range' n docs.length ∧
      st2.documentIds.map (fun p => some p.2) =
        st.documentIds.map (fun p => some p.2) ++ docs.map (resolveId cfg) := by
  intro docs
  induction docs with
  | nil =>
    intro n st st2 h
    simp [buildGo] at h
    subst h
    simp
  | cons d rest ih =>
    intro n st st2 h
    cases hx : resolveId cfg d with
    | none => simp [buildGo, addDoc, hx] at h
    | some x =>
      by_cases hdup : (st.documentIds.any fun p => p.2 = x) = true
      · simp [buildGo, addDoc, hx, hdup] at h
      · simp [buildGo, addDoc, hx, hdup] at h
        have hih := ih (n + 1) _ st2 h
        constructor
        · rw [hih.1]
          simp [List.range'_succ]
        · rw [hih.2]
          simp [hx]

theorem buildGo_ok_pairwise (cfg : Config) :
    ∀ (docs : List Doc) (n : Nat) (st st2 : BuildSt),
      buildGo cfg n st docs = Except.ok st2 →
      (docs.map (resolveId cfg)).Pairwise (· ≠ ·) ∧
      ∀ d ∈ docs, ∀ q ∈ st.documentIds, resolveId cfg d ≠ some q.2 := by
  intro docs
  induction docs with
  | nil =>
    intro n st st2 _
    exact ⟨List.Pairwise.nil, by simp⟩
  | cons d rest ih =>
    intro n st st2 h
    cases hx : resolveId cfg d with
    | none => simp [buildGo, addDoc, hx] at h
    | some x =>
      by_cases hdup : (st.documentIds.any fun p => p.2 = x) = true
      · simp [buildGo, addDoc, hx, hdup] at h
      · simp [buildGo, addDoc, hx, hdup] at h
        have hih := ih (n + 1) _ st2 h
        have hfresh : ∀ q ∈ st.documentIds, q.2 ≠ x := by
          intro q hq
          intro hq2
          exact hdup (List.any_eq_true.mpr ⟨q, hq, by simp [hq2]⟩)
        have hrest : ∀ d2 ∈ rest, resolveId cfg d2 ≠ some x := by
          intro d2 hd2
          have := hih.2 d2 hd2 (n, x) (by simp)
          simpa using this
        constructor
        · rw [List.map_cons]
          refine List.Pairwise.cons ?_ hih.1
          intro b hb
          obtain ⟨d2, hd2, rfl⟩ := List.mem_map.mp hb
          rw [hx]
          exact fun hc => hrest d2 hd2 hc.symm
        · intro d2 hd2 q hq
          rcases List.mem_cons.mp hd2 with rfl | hd2r
          · rw [hx]
            intro hc
            exact hfresh q hq (by injection hc with h2; exact h2.symm)
          · exact hih.2 d2 hd2r q (by simp [hq])

/-- Claim C8: for every pair of config and document files, `main.js` and
`part_000` invoked with no fourth argument produce the same process
outcome (same stdout text, exit status and build count): the two scripts'
non-benchmark paths are behaviorally equivalent. -/
theorem mainjs_equiv_indexrs_no_count
    (readFile : String → Except Unit String) (parseJson : String → Except Unit Json)
    (configPath sourcePath : String) :
    runCli readFile parseJson configPath sourcePath =
      runIndexrs readFile parseJson configPath sourcePath none := rfl

/-- Claim C10: a fourth CLI argument whose `parseInt` result is `NaN` is
coerced to 0 by the `|| 0` fallback, so the program behaves exactly as if
no count were supplied: a single build-and-print cycle is performed. -/
theorem nan_count_single_cycle
    (readFile : String → Except Unit String) (parseJson : String → Except Unit Json)
    (configPath sourcePath : String) (s : String)
    (hp : jsParseInt s = none) :
    runIndexrs readFile parseJson configPath sourcePath (some s) =
      runIndexrs readFile parseJson configPath sourcePath none := by
  simp only [runIndexrs, timesOf, hp]

/-- Claim C9: a fourth CLI argument parsing to a negative integer takes the
benchmark branch with a loop body that executes zero times: no index is
built and nothing is written to standard output. -/
theorem negative_count_no_build
    (readFile : String → Except Unit String) (parseJson : String → Except Unit Json)
    (configPath sourcePath : String) (s : String) (n : Int)
    (hp : jsParseInt s = some n) (hneg : n < 0) :
    (runIndexrs readFile parseJson configPath sourcePath (some s)).stdoutLines = [] ∧
    (runIndexrs readFile parseJson configPath sourcePath (some s)).builds = 0 := by
  have ht : timesOf (some s) = n := by simp [timesOf, hp]
  have htn : n.toNat = 0 := Int.toNat_of_nonpos (le_of_lt hneg)
  have hne : n ≠ 0 := by omega
  cases h1 : readFile configPath with
  | error e1 => simp [runIndexrs, h1, crashed]
  | ok ctext =>
    cases h2 : parseJson ctext with
    | error e2 => simp [runIndexrs, h1, h2, crashed]
    | ok cfgJ =>
      cases h3 : readFile sourcePath with
      | error e3 => simp [runIndexrs, h1, h2, h3, crashed]
      | ok stext =>
        cases h4 : parseJson stext with
        | error e4 => simp [runIndexrs, h1, h2, h3, h4, crashed]
        | ok srcJ =>
          simp only [runIndexrs, h1, h2, h3, h4, ht, htn]
          rw [if_pos hne]
          simp [runCycles]

/-- Claim C1: with a repeat count of 0 or absent, the program reads both
files, parses each as JSON, performs exactly one build of the index from
the parsed config and documents, and writes the serialized artifact to
standard output. -/
theorem single_mode_builds_once_and_prints
    (readFile : String → Except Unit String) (parseJson : String → Except Unit Json)
    (configPath sourcePath : String) (arg4 : Option String)
    (ctext stext : String) (cfgJ srcJ : Json) (out : String)
    (ht : timesOf arg4 = 0)
    (h1 : readFile configPath = Except.ok ctext)
    (h2 : parseJson ctext = Except.ok cfgJ)
    (h3 : readFile sourcePath = Except.ok stext)
    (h4 : parseJson stext = Except.ok srcJ)
    (h5 : oneCycle cfgJ srcJ = Except.ok out) :
    runIndexrs readFile parseJson configPath sourcePath arg4 = ⟨0, [out], 1⟩ ∧
    ∃ cfg docs I, parseConfig cfgJ = Except.ok cfg ∧ parseDocs srcJ = Except.ok docs ∧
      buildIndex cfg docs = Except.ok I ∧ out = render (serializeJ I) := by
  constructor
  · simp only [runIndexrs, h1, h2, h3, h4, ht]
    rw [if_neg (by simp)]
    simp [h5]
  · cases hc : parseConfig cfgJ with
    | error e => simp [oneCycle, hc] at h5
    | ok cfg =>
      cases hd : parseDocs srcJ with
      | error e => simp [oneCycle, hc, hd] at h5
      | ok docs =>
        cases hb : buildIndex cfg docs with
        | error e => simp [oneCycle, hc, hd, hb] at h5
        | ok I =>
          simp only [oneCycle, hc, hd, hb] at h5
          exact ⟨cfg, docs, I, rfl, rfl, hb, by injection h5 with h6; exact h6.symm⟩

/-- Claim C2 (amended): a fourth CLI argument parsing to a nonzero integer
n enters benchmarking mode, which writes nothing to standard output; when
the build-and-serialize cycle succeeds the cycle is repeated exactly
`n.toNat` times (so exactly n times for positive n, and zero times — not n
times — for negative n), discarding the results. -/
theorem benchmark_nonzero_count
    (readFile : String → Except Unit String) (parseJson : String → Except Unit Json)
    (configPath sourcePath : String) (s : String) (n : Int)
    (ctext stext : String) (cfgJ srcJ : Json)
    (hp : jsParseInt s = some n) (hn : n ≠ 0)
    (h1 : readFile configPath = Except.ok ctext)
    (h2 : parseJson ctext = Except.ok cfgJ)
    (h3 : readFile sourcePath = Except.ok stext)
    (h4 : parseJson stext = Except.ok srcJ) :
    (runIndexrs readFile parseJson configPath sourcePath (some s)).stdoutLines = [] ∧
    (∀ out, oneCycle cfgJ srcJ = Except.ok out →
      runIndexrs readFile parseJson configPath sourcePath (some s) = ⟨0, [], n.toNat⟩) ∧
    (n < 0 → runIndexrs readFile parseJson configPath sourcePath (some s) = ⟨0, [], 0⟩) := by
  have ht : timesOf (some s) = n := by simp [timesOf, hp]
  refine ⟨?_, ?_, ?_⟩
  · simp only [runIndexrs, h1, h2, h3, h4, ht]
    rw [if_pos hn]
    cases hr : runCycles cfgJ srcJ n.toNat <;> simp [crashed]
  · intro out hout
    simp only [runIndexrs, h1, h2, h3, h4, ht]
    rw [if_pos hn]
    rw [runCycles_ok cfgJ srcJ out hout n.toNat]
  · intro hneg
    have htn : n.toNat = 0 := Int.toNat_of_nonpos (le_of_lt hneg)
    simp only [runIndexrs, h1, h2, h3, h4, ht, htn]
    rw [if_pos hn]
    simp [runCycles]

/-- Claim C6: the CLI process exits nonzero on any fatal error — unreadable
config or document file, malformed JSON in either file, or a build error
surfaced in either mode — and exits zero on success. -/
theorem exit_status_contract
    (readFile : String → Except Unit String) (parseJson : String → Except Unit Json)
    (configPath sourcePath : String) (arg4 : Option String) :
    (isOkB (readFile configPath) = false →
      (runIndexrs readFile parseJson configPath sourcePath arg4).exitCode = 1) ∧
    (∀ c, readFile configPath = Except.ok c → isOkB (parseJson c) = false →
      (runIndexrs readFile parseJson configPath sourcePath arg4).exitCode = 1) ∧
    (∀ c j, readFile configPath = Except.ok c → parseJson c = Except.ok j →
      isOkB (readFile sourcePath) = false →
      (runIndexrs readFile parseJson configPath sourcePath arg4).exitCode = 1) ∧
    (∀ c j t, readFile configPath = Except.ok c → parseJson c = Except.ok j →
      readFile sourcePath = Except.ok t → isOkB (parseJson t) = false →
      (runIndexrs readFile parseJson configPath sourcePath arg4).exitCode = 1) ∧
    (∀ c j t j2, readFile configPath = Except.ok c → parseJson c = Except.ok j →
      readFile sourcePath = Except.ok t → parseJson t = Except.ok j2 →
      timesOf arg4 = 0 → isOkB (oneCycle j j2) = false →
      (runIndexrs readFile parseJson configPath sourcePath arg4).exitCode = 1) ∧
    (∀ c j t j2 out, readFile configPath = Except.ok c → parseJson c = Except.ok j →
      readFile sourcePath = Except.ok t → parseJson t = Except.ok j2 →
      timesOf arg4 = 0 → oneCycle j j2 = Except.ok out →
      (runIndexrs readFile parseJson configPath sourcePath arg4).exitCode = 0) ∧
    (∀ c j t j2 out, readFile configPath = Except.ok c → parseJson c = Except.ok j →
      readFile sourcePath = Except.ok t → parseJson t = Except.ok j2 →
      timesOf arg4 ≠ 0 → oneCycle j j2 = Except.ok out →
      (runIndexrs readFile parseJson configPath sourcePath arg4).exitCode = 0) ∧
    (∀ c j t j2 e, readFile configPath = Except.ok c → parseJson c = Except.ok j →
      readFile sourcePath = Except.ok t → parseJson t = Except.ok j2 →
      timesOf arg4 ≠ 0 → (timesOf arg4).toNat ≠ 0 → oneCycle j j2 = Except.error e →
      (runIndexrs readFile parseJson configPath sourcePath arg4).exitCode = 1) := by
  refine ⟨?_, ?_, ?_, ?_, ?_, ?_, ?_, ?_⟩
  · intro hf
    obtain ⟨e, he⟩ := (isOkB_false_iff _).mp hf
    simp [runIndexrs, he, crashed]
  · intro c h1 hf
    obtain ⟨e, he⟩ := (isOkB_false_iff _).mp hf
    simp [runIndexrs, h1, he, crashed]
  · intro c j h1 h2 hf
    obtain ⟨e, he⟩ := (isOkB_false_iff _).mp hf
    simp [runIndexrs, h1, h2, he, crashed]
  · intro c j t h1 h2 h3 hf
    obtain ⟨e, he⟩ := (isOkB_false_iff _).mp hf
    simp [runIndexrs, h1, h2, h3, he, crashed]
  · intro c j t j2 h1 h2 h3 h4 ht hf
    obtain ⟨e, he⟩ := (isOkB_false_iff _).mp hf
    simp only [runIndexrs, h1, h2, h3, h4, ht]
    rw [if_neg (by simp)]
    simp [he, crashed]
  · intro c j t j2 out h1 h2 h3 h4 ht hout
    simp only [runIndexrs, h1, h2, h3, h4, ht]
    rw [if_neg (by simp)]
    simp [hout]
  · intro c j t j2 out h1 h2 h3 h4 ht hout
    simp only [runIndexrs, h1, h2, h3, h4]
    rw [if_pos ht]
    rw [runCycles_ok j j2 out hout _]
  · intro c j t j2 e h1 h2 h3 h4 ht htn herr
    have hrc : runCycles j j2 (timesOf arg4).toNat = Except.error e := by
      cases hm : (timesOf arg4).toNat with
      | zero => exact absurd hm htn
      | succ k => simp [runCycles, herr]
    simp only [runIndexrs, h1, h2, h3, h4]
    rw [if_pos ht]
    rw [hrc]
    rfl

/-- Claim C3: for any index artifact produced by `serializeJ`,
deserializing it succeeds, reconstructs the original structures exactly,
and re-serializing renders a byte-identical artifact. -/
theorem deserialize_serialize (I : BuiltIndex) :
    deserialize (serializeJ I) = Except.ok I ∧
    Except.map (fun I2 => render (serializeJ I2)) (deserialize (serializeJ I)) =
      Except.ok (render (serializeJ I)) := by
  have hok : ∀ x : Json, (Except.ok : Json → Except DeserializeError Json) (id x) =
      Except.ok x := fun x => rfl
  have h1 : deserialize (serializeJ I) = Except.ok I := by
    simp only [serializeJ, Json.ofObj, deserialize]
    rw [if_pos trivial]
    rw [decNat_encNat]
    rw [decList_encList (decPair decNat Except.ok) (encPair encNat id)
      (decPair_encPair decNat Except.ok encNat id decNat_encNat hok) I.documentIds]
    rw [decList_encList (decPair decStr decNat) (encPair Json.str encNat)
      (decPair_encPair decStr decNat Json.str encNat decStr_encStr decNat_encNat) I.fieldIds]
    rw [decList_encList (decPair decNat (decList decNat)) (encPair encNat (encList encNat))
      (decPair_encPair decNat (decList decNat) encNat (encList encNat) decNat_encNat
        (decList_encList decNat encNat decNat_encNat)) I.fieldLength]
    rw [decList_encList decRat encRat decRat_encRat I.averageFieldLength]
    rw [decList_encList (decPair decNat (decList (decPair decStr Except.ok)))
      (encPair encNat (encList (encPair Json.str id)))
      (decPair_encPair decNat (decList (decPair decStr Except.ok)) encNat
        (encList (encPair Json.str id)) decNat_encNat
        (decList_encList (decPair decStr Except.ok) (encPair Json.str id)
          (decPair_encPair decStr Except.ok Json.str id decStr_encStr hok)))
      I.storedFields]
    rw [decList_encList
      (decPair decStr (decList (decPair decNat (decList (decPair decNat decNat)))))
      (encPair Json.str (encList (encPair encNat (encList (encPair encNat encNat)))))
      (decPair_encPair decStr (decList (decPair decNat (decList (decPair decNat decNat))))
        Json.str (encList (encPair encNat (encList (encPair encNat encNat)))) decStr_encStr
        (decList_encList (decPair decNat (decList (decPair decNat decNat)))
          (encPair encNat (encList (encPair encNat encNat)))
          (decPair_encPair decNat (decList (decPair decNat decNat)) encNat
            (encList (encPair encNat encNat)) decNat_encNat
            (decList_encList (decPair decNat decNat) (encPair encNat encNat)
              (decPair_encPair decNat decNat encNat encNat decNat_encNat decNat_encNat)))))
      I.index]
  exact ⟨h1, by rw [h1]; rfl⟩

/-- Claim C4: a document sequence in which every document resolves an
external identifier and two documents resolve equal identifiers makes the
build fail with a `DuplicateDocumentError`; no artifact is produced. -/
theorem duplicate_id_fails_build
    (cfg : Config) (docs : List Doc)
    (hall : ∀ d ∈ docs, (resolveId cfg d).isSome = true)
    (i j : Nat) (hi : i < docs.length) (hj : j < docs.length) (hij : i < j)
    (heq : resolveId cfg docs[i] = resolveId cfg docs[j]) :
    isDupErr (buildIndex cfg docs) = true ∧ isOkB (buildIndex cfg docs) = false := by
  cases hb : buildGo cfg 0 BuildSt.empty docs with
  | ok st =>
    exfalso
    have hpw := (buildGo_ok_pairwise cfg docs 0 BuildSt.empty st hb).1
    have hne := List.pairwise_iff_getElem.mp hpw i j
      (by simpa using hi) (by simpa using hj) hij
    rw [List.getElem_map, List.getElem_map] at hne
    exact hne heq
  | error e =>
    obtain ⟨x, hx⟩ := buildGo_error_dup cfg docs 0 BuildSt.empty e hall hb
    subst hx
    constructor <;> simp [buildIndex, hb, isDupErr, isOkB]

/-- Claim C5: the published average field length of each configured field
is the mean of the per-document token counts over exactly the documents
with nonzero length for that field, and is 0 (not an error) when no
document contains the field. -/
theorem average_field_length_mean_over_nonzero
    (cfg : Config) (docs : List Doc) (I : BuiltIndex) (fid : Nat)
    (hb : buildIndex cfg docs = Except.ok I) (hf : fid < cfg.fields.length) :
    I.averageFieldLength[fid]? =
      some (if ((colLengths I.fieldLength fid).filter fun n => n ≠ 0).length = 0 then (0 : ℚ)
            else ((((colLengths I.fieldLength fid).filter fun n => n ≠ 0).sum : ℚ) /
                  (((colLengths I.fieldLength fid).filter fun n => n ≠ 0).length : ℚ))) := by
  cases hg : buildGo cfg 0 BuildSt.empty docs with
  | error e => simp [buildIndex, hg] at hb
  | ok st =>
    simp only [buildIndex, hg] at hb
    injection hb with hb2
    subst hb2
    simp only [List.getElem?_map, List.getElem?_range hf, Option.map_some']
    simp [meanNonzero]

/-- Claim C7: two builds on identical inputs yield identical indices and
identical rendered artifacts, and the internal-document-id mapping is
stable and order-preserving: ids are 0,1,2,... in arrival order, mapped to
the documents' resolved external identifiers. -/
theorem build_deterministic_stable_ids
    (cfg : Config) (docs : List Doc) (I1 I2 : BuiltIndex)
    (h1 : buildIndex cfg docs = Except.ok I1)
    (h2 : buildIndex cfg docs = Except.ok I2) :
    I1 = I2 ∧ render (serializeJ I1) = render (serializeJ I2) ∧
    I1.documentIds.map Prod.fst = List.range docs.length ∧
    I1.documentIds.map (fun p => some p.2) = docs.map (resolveId cfg) := by
  have h12 : I1 = I2 := by
    have := h1.symm.trans h2
    injection this
  cases hg : buildGo cfg 0 BuildSt.empty docs with
  | error e => simp [buildIndex, hg] at h1
  | ok st =>
    simp only [buildIndex, hg] at h1
    injection h1 with hb2
    subst hb2
    have hids := buildGo_ok_ids cfg docs 0 BuildSt.empty st hg
    refine ⟨h12, by rw [h12], ?_, ?_⟩
    · have := hids.1
      simpa [BuildSt.empty, List.range_eq_range'] using this
    · have := hids.2
      simpa [BuildSt.empty] using this

theorem single_mode_builds_once_and_prints_witness :
    runIndexrs readW parseW "cfg" "docs" none = ⟨0, [outW], 1⟩ :=
  (single_mode_builds_once_and_prints readW parseW "cfg" "docs" none
    "C" "D" cfgJW docsJW outW rfl rfl rfl rfl rfl rfl).1

theorem benchmark_nonzero_count_witness :
    (runIndexrs readW parseW "cfg" "docs" (some "2")).stdoutLines = [] ∧
    runIndexrs readW parseW "cfg" "docs" (some "2") = ⟨0, [], 2⟩ := by
  have h := benchmark_nonzero_count readW parseW "cfg" "docs" "2" 2 "C" "D" cfgJW docsJW
    (by decide) (by decide) rfl rfl rfl rfl
  exact ⟨h.1, h.2.1 outW rfl⟩

theorem benchmark_negative_count_cex :
    jsParseInt "-1" = some (-1) ∧ (-1 : Int) ≠ 0 ∧
    (runIndexrs readW parseW "cfg" "docs" (some "-1")).stdoutLines = [] ∧
    (runIndexrs readW parseW "cfg" "docs" (some "-1")).exitCode = 0 ∧
    (runIndexrs readW parseW "cfg" "docs" (some "-1")).builds = 0 ∧
    ¬(((runIndexrs readW parseW "cfg" "docs" (some "-1")).builds : Int) = -1) := by
  refine ⟨by decide, by decide, ?_, ?_, ?_, by decide⟩ <;> decide

theorem duplicate_id_fails_build_witness :
    (∀ d ∈ c4docs, (resolveId c5cfg d).isSome = true) ∧
    isDupErr (buildIndex c5cfg c4docs) = true ∧
    isOkB (buildIndex c5cfg c4docs) = false := by
  have h := duplicate_id_fails_build c5cfg c4docs (by decide) 0 1
    (by decide) (by decide) (by decide) (by decide)
  exact ⟨by decide, h.1, h.2⟩

theorem average_field_length_mean_over_nonzero_witness :
    buildIndex c5cfg c5docs = Except.ok c5built ∧
    colLengths c5built.fieldLength 0 = [6, 4, 0] ∧
    c5built.averageFieldLength[0]? = some 5 := by
  have h := average_field_length_mean_over_nonzero c5cfg c5docs c5built 0 rfl (by decide)
  refine ⟨rfl, by decide, ?_⟩
  rw [h]
  have hnz : (colLengths c5built.fieldLength 0).filter (fun n => n ≠ 0) = [6, 4] := by decide
  rw [hnz]
  norm_num

theorem exit_status_contract_witness :
    (runIndexrs readBad parseW "cfg" "docs" none).exitCode = 1 ∧
    (runIndexrs readW parseW "cfg" "docs" none).exitCode = 0 := by
  constructor
  · exact (exit_status_contract readBad parseW "cfg" "docs" none).1 (by decide)
  · exact (exit_status_contract readW parseW "cfg" "docs" none).2.2.2.2.2.1
      "C" cfgJW "D" docsJW outW rfl rfl rfl rfl rfl rfl

theorem build_deterministic_stable_ids_witness :
    c5built.documentIds.map Prod.fst = List.range 3 ∧
    c5built.documentIds.map (fun p => some p.2) = c5docs.map (resolveId c5cfg) := by
  have h := build_deterministic_stable_ids c5cfg c5docs c5built c5built rfl rfl
  exact ⟨h.2.2.1, h.2.2.2⟩

theorem negative_count_no_build_witness :
    jsParseInt "-3" = some (-3) ∧
    (runIndexrs readW parseW "cfg" "docs" (some "-3")).stdoutLines = [] ∧
    (runIndexrs readW parseW "cfg" "docs" (some "-3")).builds = 0 := by
  have h := negative_count_no_build readW parseW "cfg" "docs" "-3" (-3) (by decide) (by decide)
  exact ⟨by decide, h.1, h.2⟩

theorem nan_count_single_cycle_witness :
    jsParseInt "undefined" = none ∧
    runIndexrs readW parseW "cfg" "docs" (some "undefined") =
      runIndexrs readW parseW "cfg" "docs" none :=
  ⟨by decide, nan_count_single_cycle readW parseW "cfg" "docs" "undefined" (by decide)⟩
